import Mathlib

/-!
Shallow embedding of the stork file-transfer core
(`src/src-tauri/src/stork_core.rs`, exported through `src/src-tauri/src/main.rs`).

The two Tauri commands `send_file` and `receive_file` (and the helper
`handle_file_send`) are async Rust functions whose behaviour is a strictly
sequential composition of calls to external collaborators: the magic-wormhole
library (mailbox creation/connection, wormhole key exchange, the transfer
protocol), the filesystem, and timers.  We embed each function as a pure Lean
function over an environment record that fixes the result of every external
call, and we return, together with the Rust function's `Result`, the ordered
trace of observable effects (println logging, filesystem probes, network
operations, sleeps, task spawning).  Each constructor of `Effect` corresponds
to a concrete call site in the source; `emitEvent` models the Tauri host
notification API (`AppHandle::emit`), which the source imports (the `_app`
handle of `receive_file`) but never calls.

Machine integers do not overflow anywhere in the modelled code (all durations
are small constants), so durations are plain `Nat` (seconds or milliseconds,
as at the call site).
-/

namespace Stork

/-- Result of a future wrapped in `tokio::time::timeout`: either the timer
fired first, or the inner future completed with a value. -/
inductive Timed (α : Type) where
  | timedOut : Timed α
  | completed : α → Timed α
deriving DecidableEq

/-- The file offer the receiver obtains from `transfer::request_file`
(`ReceiveRequest` in magic-wormhole); the source reads only `file_name()`. -/
structure Offer where
  fileName : String
deriving DecidableEq

/-- `transit::Abilities` as used by the source: only the two flags it sets. -/
structure Abilities where
  direct_tcp_v1 : Bool
  relay_v1 : Bool
deriving DecidableEq

/-- `transit::Abilities::default()`. -/
def Abilities.default : Abilities := ⟨false, false⟩

/-- The abilities value both roles build (lines 75-78 and 159-162):
default, then `direct_tcp_v1 = true` and `relay_v1 = true`. -/
def transitAbilities : Abilities :=
  { Abilities.default with direct_tcp_v1 := true, relay_v1 := true }

/-- Observable effects of the embedded functions, in program order.
`streamOp op outer cancel` is a call into the magic-wormhole transfer API
(`transfer::send_file`, `transfer::request_file`, `ReceiveRequest::accept`)
recording the outer `tokio::time::timeout` bound in seconds (if any) and the
duration in seconds of the `cancel` sleep-future handed to the call.
`logOutcome` is the terminal `println!` of the spawned sender closure
(stork_core.rs lines 36-37), distinguished from ordinary `log` because it is
the only place the background outcome is reported anywhere. -/
inductive Effect where
  | log (msg : String)
  | logOutcome (msg : String)
  | fsExists (path : String)
  | fsMetadata (path : String)
  | fsOpen (path : String)
  | fsCreate (path : String)
  | createMailbox
  | connectMailbox
  | connectWormhole (timeoutSecs : Nat)
  | sleepMs (ms : Nat)
  | spawnTask
  | streamOp (op : String) (outerTimeoutSecs : Option Nat) (cancelSecs : Nat)
  | emitEvent (name : String) (payload : String)
deriving DecidableEq

/-- Network-touching effects (rendezvous service, wormhole, transfer). -/
def isNetworkEffect : Effect → Bool
  | .createMailbox => true
  | .connectMailbox => true
  | .connectWormhole _ => true
  | .streamOp _ _ _ => true
  | _ => false

/-- Sleep effects, for bounding the delay of the host-visible path. -/
def isSleepEffect : Effect → Bool
  | .sleepMs _ => true
  | _ => false

/-- The terminal-outcome report of the sender's spawned closure. -/
def isOutcomeLog : Effect → Bool
  | .logOutcome _ => true
  | _ => false

/-- A host notification (Tauri event emission).  The source never emits one:
no constructor of any trace below is `emitEvent`. -/
def isHostNotification : Effect → Bool
  | .emitEvent _ _ => true
  | _ => false

/-- Timeout on `Wormhole::connect` in `handle_file_send` (line 54): 300 s. -/
def awaitPeerTimeoutSecs : Nat := 300

/-- Timeout on `Wormhole::connect` in `receive_file` (line 144): 120 s. -/
def recvWormholeTimeoutSecs : Nat := 120

/-- Timeout on `transfer::request_file` in `receive_file` (line 172): 120 s. -/
def requestTimeoutSecs : Nat := 120

/-- Timeout on `ReceiveRequest::accept` in `receive_file` (line 213): 600 s. -/
def acceptTimeoutSecs : Nat := 600

/-- The duration of every `cancel` sleep-future (lines 101, 166, 209): 600 s. -/
def cancelTimerSecs : Nat := 600

/-- The sleep before `send_file` returns (line 42): 2000 ms. -/
def postSpawnSleepMs : Nat := 2000

/-- The Tauri commands registered in `main.rs` (`generate_handler!`). -/
def exportedCommands : List String := ["send_file", "receive_file"]

/-- The parameters of the `send_file` command (line 8). -/
def sendFileParams : List String := ["path"]

/-- The parameters of the `receive_file` command (line 123). -/
def receiveFileParams : List String := ["_app", "code_str"]

/-- Model of `Path::file_name().and_then(|n| n.to_str())` on a Unix-style
path string: the final non-empty, non-`.` component, none if the path ends
in `..` or has no such component. -/
def rustFileName (p : String) : Option String :=
  let comps := (p.splitOn "/").filter (fun c => c != "" && c != ".")
  match comps.getLast? with
  | none => none
  | some c => if c = ".." then none else some c

/-- Lines 67-71: the offered file name, `"file"` when the path has none. -/
def fileNameOr (p : String) : String := (rustFileName p).getD "file"

/-- Environment for the sender flow: the result of each external call made by
`send_file` / `handle_file_send`, in source order. -/
structure SendEnv where
  /-- `file_path.exists()` (line 15). -/
  pathExists : Bool
  /-- `MailboxConnection::create(APP_CONFIG, 2)` (line 21); on success the
  value of `mailbox.code()` as a string (line 29). -/
  mailbox : Except String String
  /-- `timeout(300 s, Wormhole::connect(mailbox))` (lines 53-57). -/
  wormholeConnect : Timed (Except String Unit)
  /-- `async_std::fs::metadata(&file_path)` (line 88); on success `.len()`. -/
  metadata : Except String Nat
  /-- `async_std::fs::File::open(&file_path)` (line 94). -/
  openFile : Except String Unit
  /-- `transfer::send_file(...)` (lines 105-116). -/
  sendResult : Except String Unit

/-- What `send_file` leaves behind: its `Result`, the effect trace of the
host-visible call itself, and — when a background task was spawned — that
detached task's own result and trace.  The background component exists
whether or not anyone ever looks at it: the source drops the `JoinHandle`
(line 34, `let _handle = ...`). -/
structure SendOutput where
  result : Except String String
  hostTrace : List Effect
  background : Option (Except String Unit × List Effect)

/-- `handle_file_send` (stork_core.rs lines 47-120): awaits the receiver
under a 300 s timeout, reads the file metadata, opens the file, and runs
`transfer::send_file` with a 600 s sleep as the cancel future. -/
def handle_file_send (path : String) (env : SendEnv) :
    Except String Unit × List Effect :=
  match env.wormholeConnect with
  | .timedOut =>
      (.error "No receiver connected within 5 minutes",
       [.log "Waiting for receiver to connect...",
        .connectWormhole awaitPeerTimeoutSecs])
  | .completed (.error e) =>
      (.error ("Failed to connect wormhole: " ++ e),
       [.log "Waiting for receiver to connect...",
        .connectWormhole awaitPeerTimeoutSecs,
        .log ("Wormhole connection failed: " ++ e)])
  | .completed (.ok _) =>
      match env.metadata with
      | .error e =>
          (.error ("Failed to get file metadata: " ++ e),
           [.log "Waiting for receiver to connect...",
            .connectWormhole awaitPeerTimeoutSecs,
            .log "Receiver connected! Starting file transfer...",
            .log "Transit abilities: direct_tcp_v1=true relay_v1=true",
            .fsMetadata path])
      | .ok _ =>
          match env.openFile with
          | .error e =>
              (.error ("Failed to open file: " ++ e),
               [.log "Waiting for receiver to connect...",
                .connectWormhole awaitPeerTimeoutSecs,
                .log "Receiver connected! Starting file transfer...",
                .log "Transit abilities: direct_tcp_v1=true relay_v1=true",
                .fsMetadata path,
                .fsOpen path])
          | .ok _ =>
              match env.sendResult with
              | .error e =>
                  (.error ("Failed to send file: " ++ e),
                   [.log "Waiting for receiver to connect...",
                    .connectWormhole awaitPeerTimeoutSecs,
                    .log "Receiver connected! Starting file transfer...",
                    .log "Transit abilities: direct_tcp_v1=true relay_v1=true",
                    .fsMetadata path,
                    .fsOpen path,
                    .streamOp "transfer::send_file" none cancelTimerSecs])
              | .ok _ =>
                  (.ok (),
                   [.log "Waiting for receiver to connect...",
                    .connectWormhole awaitPeerTimeoutSecs,
                    .log "Receiver connected! Starting file transfer...",
                    .log "Transit abilities: direct_tcp_v1=true relay_v1=true",
                    .fsMetadata path,
                    .fsOpen path,
                    .streamOp "transfer::send_file" none cancelTimerSecs])

/-- The closure spawned by `send_file` (lines 34-39): runs
`handle_file_send` and reports the outcome with a final `println!` —
nothing else is ever done with the outcome. -/
def sendBackgroundTask (path : String) (env : SendEnv) :
    Except String Unit × List Effect :=
  match handle_file_send path env with
  | (.ok u, tr) =>
      (.ok u, tr ++ [.logOutcome "File transfer completed successfully"])
  | (.error e, tr) =>
      (.error e, tr ++ [.logOutcome ("File transfer failed: " ++ e)])

/-- `send_file` (stork_core.rs lines 7-45): checks existence, creates the
mailbox, reads the code, spawns the detached background task, sleeps 2 s,
and returns the code. -/
def send_file (path : String) (env : SendEnv) : SendOutput :=
  if env.pathExists then
    match env.mailbox with
    | .error e =>
        { result := .error ("Failed to create mailbox: " ++ e)
          hostTrace :=
            [.log ("Starting file send for: " ++ path),
             .fsExists path,
             .log "Creating mailbox connection...",
             .createMailbox,
             .log ("Mailbox creation failed: " ++ e)]
          background := none }
    | .ok code =>
        { result := .ok code
          hostTrace :=
            [.log ("Starting file send for: " ++ path),
             .fsExists path,
             .log "Creating mailbox connection...",
             .createMailbox,
             .log ("Generated code: " ++ code),
             .spawnTask,
             .sleepMs postSpawnSleepMs]
          background := some (sendBackgroundTask path env) }
  else
    { result := .error "File does not exist"
      hostTrace :=
        [.log ("Starting file send for: " ++ path),
         .fsExists path]
      background := none }

/-- Environment for the receiver flow: the result of each external call made
by `receive_file`, in source order. -/
structure RecvEnv where
  /-- `code_str.parse::<Code>()` (line 127), a magic-wormhole library call;
  on success the parsed code (rendered back as a string). -/
  parseCode : Except String String
  /-- `MailboxConnection::connect(APP_CONFIG, code, false)` (line 134). -/
  mailboxConnect : Except String Unit
  /-- `timeout(120 s, Wormhole::connect(mailbox))` (lines 143-146). -/
  wormholeConnect : Timed (Except String Unit)
  /-- `dirs_next::download_dir()` (line 155). -/
  downloadDir : Option String
  /-- `timeout(120 s, transfer::request_file(...))` (lines 171-174);
  `Ok(None)` is the offer-absent case of line 225. -/
  requestFile : Timed (Except String (Option Offer))
  /-- `async_std::fs::File::create(&file_path)` (line 195). -/
  createFile : Except String Unit
  /-- `timeout(600 s, req.accept(...))` (lines 212-215). -/
  accept : Timed (Except String Unit)

/-- What `receive_file` leaves behind: its `Result` and its effect trace.
Everything happens inside the call itself; nothing is spawned. -/
structure RecvOutput where
  result : Except String String
  trace : List Effect

/-- `receive_file` (stork_core.rs lines 122-229): parses the code, connects
to the mailbox and the wormhole, resolves the downloads directory, requests
the file, creates the destination under the downloads directory, and accepts
the transfer; each wormhole/transfer call receives a 600 s sleep as its
cancel future. -/
def receive_file (codeStr : String) (env : RecvEnv) : RecvOutput :=
  match env.parseCode with
  | .error e =>
      { result := .error ("Invalid code format: " ++ e)
        trace :=
          [.log ("Starting file receive with code: " ++ codeStr),
           .log ("Code parsing failed: " ++ e)] }
  | .ok _ =>
      match env.mailboxConnect with
      | .error e =>
          { result := .error ("Failed to connect to mailbox: " ++ e)
            trace :=
              [.log ("Starting file receive with code: " ++ codeStr),
               .log "Connecting to mailbox...",
               .connectMailbox,
               .log ("Mailbox connection failed: " ++ e)] }
      | .ok _ =>
          match env.wormholeConnect with
          | .timedOut =>
              { result := .error "Connection timeout - took longer than 2 minutes"
                trace :=
                  [.log ("Starting file receive with code: " ++ codeStr),
                   .log "Connecting to mailbox...",
                   .connectMailbox,
                   .log "Connecting to wormhole...",
                   .connectWormhole recvWormholeTimeoutSecs] }
          | .completed (.error e) =>
              { result := .error ("Failed to connect wormhole: " ++ e)
                trace :=
                  [.log ("Starting file receive with code: " ++ codeStr),
                   .log "Connecting to mailbox...",
                   .connectMailbox,
                   .log "Connecting to wormhole...",
                   .connectWormhole recvWormholeTimeoutSecs,
                   .log ("Wormhole connection failed: " ++ e)] }
          | .completed (.ok _) =>
              match env.downloadDir with
              | none =>
                  { result := .error "Could not find downloads directory"
                    trace :=
                      [.log ("Starting file receive with code: " ++ codeStr),
                       .log "Connecting to mailbox...",
                       .connectMailbox,
                       .log "Connecting to wormhole...",
                       .connectWormhole recvWormholeTimeoutSecs] }
              | some downloadsDir =>
                  match env.requestFile with
                  | .timedOut =>
                      { result := .error "File request timeout - took longer than 2 minutes"
                        trace :=
                          [.log ("Starting file receive with code: " ++ codeStr),
                           .log "Connecting to mailbox...",
                           .connectMailbox,
                           .log "Connecting to wormhole...",
                           .connectWormhole recvWormholeTimeoutSecs,
                           .log "Receiver transit abilities: direct_tcp_v1=true relay_v1=true",
                           .log "Requesting file transfer...",
                           .streamOp "transfer::request_file" (some requestTimeoutSecs) cancelTimerSecs] }
                  | .completed (.error e) =>
                      { result := .error ("Failed to request file: " ++ e)
                        trace :=
                          [.log ("Starting file receive with code: " ++ codeStr),
                           .log "Connecting to mailbox...",
                           .connectMailbox,
                           .log "Connecting to wormhole...",
                           .connectWormhole recvWormholeTimeoutSecs,
                           .log "Receiver transit abilities: direct_tcp_v1=true relay_v1=true",
                           .log "Requesting file transfer...",
                           .streamOp "transfer::request_file" (some requestTimeoutSecs) cancelTimerSecs,
                           .log ("Request file error: " ++ e)] }
                  | .completed (.ok none) =>
                      { result := .error "File transfer was cancelled or failed to receive offer"
                        trace :=
                          [.log ("Starting file receive with code: " ++ codeStr),
                           .log "Connecting to mailbox...",
                           .connectMailbox,
                           .log "Connecting to wormhole...",
                           .connectWormhole recvWormholeTimeoutSecs,
                           .log "Receiver transit abilities: direct_tcp_v1=true relay_v1=true",
                           .log "Requesting file transfer...",
                           .streamOp "transfer::request_file" (some requestTimeoutSecs) cancelTimerSecs,
                           .log "No file offer received from sender"] }
                  | .completed (.ok (some offer)) =>
                      let filePath := downloadsDir ++ "/" ++ offer.fileName
                      match env.createFile with
                      | .error e =>
                          { result := .error ("Failed to create file: " ++ e)
                            trace :=
                              [.log ("Starting file receive with code: " ++ codeStr),
                               .log "Connecting to mailbox...",
                               .connectMailbox,
                               .log "Connecting to wormhole...",
                               .connectWormhole recvWormholeTimeoutSecs,
                               .log "Receiver transit abilities: direct_tcp_v1=true relay_v1=true",
                               .log "Requesting file transfer...",
                               .streamOp "transfer::request_file" (some requestTimeoutSecs) cancelTimerSecs,
                               .log ("Received file offer: " ++ offer.fileName ++ " (saving to: " ++ filePath ++ ")"),
                               .fsCreate filePath] }
                      | .ok _ =>
                          match env.accept with
                          | .timedOut =>
                              { result := .error "File transfer timeout - took longer than 10 minutes"
                                trace :=
                                  [.log ("Starting file receive with code: " ++ codeStr),
                                   .log "Connecting to mailbox...",
                                   .connectMailbox,
                                   .log "Connecting to wormhole...",
                                   .connectWormhole recvWormholeTimeoutSecs,
                                   .log "Receiver transit abilities: direct_tcp_v1=true relay_v1=true",
                                   .log "Requesting file transfer...",
                                   .streamOp "transfer::request_file" (some requestTimeoutSecs) cancelTimerSecs,
                                   .log ("Received file offer: " ++ offer.fileName ++ " (saving to: " ++ filePath ++ ")"),
                                   .fsCreate filePath,
                                   .log ("Accepting file: " ++ offer.fileName),
                                   .streamOp "accept" (some acceptTimeoutSecs) cancelTimerSecs] }
                          | .completed (.error e) =>
                              { result := .error ("Failed to receive file: " ++ e)
                                trace :=
                                  [.log ("Starting file receive with code: " ++ codeStr),
                                   .log "Connecting to mailbox...",
                                   .connectMailbox,
                                   .log "Connecting to wormhole...",
                                   .connectWormhole recvWormholeTimeoutSecs,
                                   .log "Receiver transit abilities: direct_tcp_v1=true relay_v1=true",
                                   .log "Requesting file transfer...",
                                   .streamOp "transfer::request_file" (some requestTimeoutSecs) cancelTimerSecs,
                                   .log ("Received file offer: " ++ offer.fileName ++ " (saving to: " ++ filePath ++ ")"),
                                   .fsCreate filePath,
                                   .log ("Accepting file: " ++ offer.fileName),
                                   .streamOp "accept" (some acceptTimeoutSecs) cancelTimerSecs,
                                   .log ("Accept file error: " ++ e)] }
                          | .completed (.ok _) =>
                              { result := .ok filePath
                                trace :=
                                  [.log ("Starting file receive with code: " ++ codeStr),
                                   .log "Connecting to mailbox...",
                                   .connectMailbox,
                                   .log "Connecting to wormhole...",
                                   .connectWormhole recvWormholeTimeoutSecs,
                                   .log "Receiver transit abilities: direct_tcp_v1=true relay_v1=true",
                                   .log "Requesting file transfer...",
                                   .streamOp "transfer::request_file" (some requestTimeoutSecs) cancelTimerSecs,
                                   .log ("Received file offer: " ++ offer.fileName ++ " (saving to: " ++ filePath ++ ")"),
                                   .fsCreate filePath,
                                   .log ("Accepting file: " ++ offer.fileName),
                                   .streamOp "accept" (some acceptTimeoutSecs) cancelTimerSecs,
                                   .log ("File successfully saved to: " ++ filePath)] }

/-- The effective upper bound, in seconds, on how long a transfer-API call
can keep running, given its outer `tokio::time::timeout` (if any) and the
duration of its cancel sleep-future: whichever fires first aborts it. -/
def effectiveBound (outer : Option Nat) (cancel : Nat) : Nat :=
  match outer with
  | none => cancel
  | some t => min t cancel

/-- Checks, for a single effect, that any transfer-API call uses the fixed
600 s timer as its cancel capability and cannot keep running past 600 s. -/
def cancelIsFixedTimer : Effect → Bool
  | .streamOp _ outer cancel =>
      cancel == cancelTimerSecs && effectiveBound outer cancel ≤ cancelTimerSecs
  | _ => true

/-- Concrete sender environment for C1: mailbox allocation succeeds and no
receiver ever joins (the AwaitingPeer wait times out). -/
def c1Env : SendEnv :=
  { pathExists := true
    mailbox := .ok "5-ocean-walrus"
    wormholeConnect := .timedOut
    metadata := .ok 10
    openFile := .ok ()
    sendResult := .ok () }

/-- Concrete sender environment for C2: the spawned task fails (wormhole
connection refused) after `send_file` has already returned the code. -/
def c2Env : SendEnv :=
  { pathExists := true
    mailbox := .ok "7-guitarist-revenge"
    wormholeConnect := .completed (.error "connection refused")
    metadata := .ok 1024
    openFile := .ok ()
    sendResult := .ok () }

/-- Concrete receiver environment for C3: the code string does not parse. -/
def c3Env : RecvEnv :=
  { parseCode := .error "failed to parse code"
    mailboxConnect := .ok ()
    wormholeConnect := .completed (.ok ())
    downloadDir := some "/home/user/Downloads"
    requestFile := .completed (.ok none)
    createFile := .ok ()
    accept := .completed (.ok ()) }

/-- Concrete receiver environment for C4: every phase up to the file request
succeeds, and the request resolves with no offer — the branch the source
itself labels "File transfer was cancelled or failed to receive offer". -/
def c4Env : RecvEnv :=
  { parseCode := .ok "4-purple-sausages"
    mailboxConnect := .ok ()
    wormholeConnect := .completed (.ok ())
    downloadDir := some "/home/user/Downloads"
    requestFile := .completed (.ok none)
    createFile := .ok ()
    accept := .completed (.ok ()) }

/-- Concrete sender environment for C5: no receiver joins in time. -/
def c5Env : SendEnv :=
  { pathExists := true
    mailbox := .ok "3-quiet-lantern"
    wormholeConnect := .timedOut
    metadata := .ok 42
    openFile := .ok ()
    sendResult := .ok () }

/-- Concrete receiver environment for C6: a fully successful run whose
downloads directory is `/home/alice/Downloads`. -/
def c6EnvA : RecvEnv :=
  { parseCode := .ok "4-hello-world"
    mailboxConnect := .ok ()
    wormholeConnect := .completed (.ok ())
    downloadDir := some "/home/alice/Downloads"
    requestFile := .completed (.ok (some ⟨"report.pdf"⟩))
    createFile := .ok ()
    accept := .completed (.ok ()) }

/-- The same run as `c6EnvA` with the same caller argument but a different
system downloads directory. -/
def c6EnvB : RecvEnv :=
  { c6EnvA with downloadDir := some "/srv/elsewhere" }

/-- Concrete sender environment for C7: the path does not exist. -/
def c7Env : SendEnv :=
  { pathExists := false
    mailbox := .ok "1-unused-code"
    wormholeConnect := .timedOut
    metadata := .error "missing"
    openFile := .error "missing"
    sendResult := .error "missing" }

/-- Concrete receiver environment for C8: a fully successful run. -/
def c8Env : RecvEnv :=
  { parseCode := .ok "9-brave-toaster"
    mailboxConnect := .ok ()
    wormholeConnect := .completed (.ok ())
    downloadDir := some "/home/bob/Downloads"
    requestFile := .completed (.ok (some ⟨"photo.jpg"⟩))
    createFile := .ok ()
    accept := .completed (.ok ()) }

/-- Concrete sender environment for C10: the path exists but is not a
readable regular file (metadata fails, e.g. a directory), discovered only
inside the background task. -/
def c10Env : SendEnv :=
  { pathExists := true
    mailbox := .ok "8-salty-engine"
    wormholeConnect := .completed (.ok ())
    metadata := .error "Is a directory (os error 21)"
    openFile := .error "Is a directory (os error 21)"
    sendResult := .ok () }

/-- C1: for every valid file input, `send_file` returns the introduction
code to the caller without waiting for a receiver to join: as soon as the
path exists and mailbox allocation succeeds, the result is `Ok(code)`,
whatever the outcome of the rendezvous/negotiation/transfer phases (the
hypotheses constrain nothing past mailbox creation), those phases continue
in a detached background task, the host-visible path performs no network
operation beyond creating the mailbox, and its only delay is the fixed
2000 ms sleep. -/
theorem C1_send_file_returns_code_without_peer (p c : String) (env : SendEnv)
    (hex : env.pathExists = true) (hmb : env.mailbox = .ok c) :
    (send_file p env).result = .ok c ∧
    (send_file p env).background = some (sendBackgroundTask p env) ∧
    (send_file p env).hostTrace.filter isNetworkEffect = [.createMailbox] ∧
    (send_file p env).hostTrace.filter isSleepEffect = [.sleepMs postSpawnSleepMs] := by
  simp [send_file, hex, hmb, isNetworkEffect, isSleepEffect]

/-- C1 witness: the theorem applied to `c1Env`, where no receiver ever
joins, still yields the code. -/
theorem C1_witness :
    c1Env.pathExists = true ∧ c1Env.mailbox = .ok "5-ocean-walrus" ∧
    (send_file "/tmp/demo.txt" c1Env).result = .ok "5-ocean-walrus" :=
  ⟨rfl, rfl, (C1_send_file_returns_code_without_peer "/tmp/demo.txt"
    "5-ocean-walrus" c1Env rfl rfl).1⟩

/-- C2 counterexample: in `c2Env` the detached sender task fails, yet the
caller-visible result of `send_file` is `Ok(code)` and the combined effect
trace of the call and the background task contains no host notification
(no Tauri event is ever emitted): the terminal outcome is not delivered to
the host through any callback, future, or event — it is lost to stdout. -/
theorem C2_counterexample :
    (send_file "/tmp/a.txt" c2Env).result = .ok "7-guitarist-revenge" ∧
    ((send_file "/tmp/a.txt" c2Env).background.map Prod.fst) =
      some (.error "Failed to connect wormhole: connection refused") ∧
    (((send_file "/tmp/a.txt" c2Env).hostTrace
        ++ ((send_file "/tmp/a.txt" c2Env).background.map Prod.snd).getD []).filter
      isHostNotification) = [] :=
  ⟨rfl, rfl, rfl⟩

/-- C2 as amended: each sender session run settles exactly one terminal
outcome, reported by exactly one terminal `println!` inside the detached
task — but that outcome is only written to stdout; no host notification
(callback, future, or event) ever appears in either trace, and the value
returned to the host is the code alone. -/
theorem C2_sender_outcome_only_logged (p c : String) (env : SendEnv)
    (hex : env.pathExists = true) (hmb : env.mailbox = .ok c) :
    (send_file p env).result = .ok c ∧
    (send_file p env).background = some (sendBackgroundTask p env) ∧
    ((sendBackgroundTask p env).2.filter isOutcomeLog).length = 1 ∧
    (((send_file p env).hostTrace ++ (sendBackgroundTask p env).2).filter
      isHostNotification) = [] := by
  rcases hwc : env.wormholeConnect with _ | (e | u) <;>
  rcases hmd : env.metadata with e2 | n <;>
  rcases hop : env.openFile with e3 | u2 <;>
  rcases hsr : env.sendResult with e4 | u3 <;>
  simp [send_file, sendBackgroundTask, handle_file_send, hex, hmb, hwc, hmd,
        hop, hsr, isOutcomeLog, isHostNotification]

/-- C2 witness: the amended theorem applied to `c2Env`. -/
theorem C2_witness :
    c2Env.pathExists = true ∧ c2Env.mailbox = .ok "7-guitarist-revenge" ∧
    ((sendBackgroundTask "/tmp/a.txt" c2Env).2.filter isOutcomeLog).length = 1 :=
  ⟨rfl, rfl, (C2_sender_outcome_only_logged "/tmp/a.txt"
    "7-guitarist-revenge" c2Env rfl rfl).2.2.1⟩

/-- C3: whenever the code string fails to parse, `receive_file` returns the
invalid-input error and its trace contains no network effect at all — in
particular no mailbox connection is attempted. -/
theorem C3_invalid_code_rejected_before_network (s e : String) (env : RecvEnv)
    (hp : env.parseCode = .error e) :
    (receive_file s env).result = .error ("Invalid code format: " ++ e) ∧
    (receive_file s env).trace.filter isNetworkEffect = [] := by
  simp [receive_file, hp, isNetworkEffect]

/-- C3 witness: the theorem applied to `c3Env` with an empty input string. -/
theorem C3_witness :
    c3Env.parseCode = .error "failed to parse code" ∧
    (receive_file "" c3Env).result =
      .error "Invalid code format: failed to parse code" :=
  ⟨rfl, (C3_invalid_code_rejected_before_network "" "failed to parse code"
    c3Env rfl).1⟩

/-- C4 counterexample: no exported command and no command parameter offers a
cancel handle to the caller, and when the transfer is cancelled (the request
resolves with no offer, the branch the source prints as cancellation) the
session result delivered to the user is an error — so cancellation is
reported as an error, and no caller-raised cancel signal exists at all. -/
theorem C4_counterexample :
    exportedCommands.contains "cancel" = false ∧
    sendFileParams.contains "cancel" = false ∧
    receiveFileParams.contains "cancel" = false ∧
    (receive_file "4-purple-sausages" c4Env).result =
      .error "File transfer was cancelled or failed to receive offer" :=
  ⟨rfl, rfl, rfl, rfl⟩

/-- C4 as amended: the caller has no cancel handle — every cancel capability
the code passes to a transfer call is the fixed 600 s sleep timer (every
`streamOp` in the receiver trace carries `cancelSecs = 600`) — and the
cancelled-or-no-offer outcome is surfaced to the caller as an error, not as
a distinct non-error Cancelled state. -/
theorem C4_cancel_is_timer_and_reported_as_error (c pc d : String) (env : RecvEnv)
    (hp : env.parseCode = .ok pc) (hm : env.mailboxConnect = .ok ())
    (hw : env.wormholeConnect = .completed (.ok ()))
    (hd : env.downloadDir = some d)
    (hr : env.requestFile = .completed (.ok none)) :
    (receive_file c env).result =
      .error "File transfer was cancelled or failed to receive offer" ∧
    (receive_file c env).trace.all cancelIsFixedTimer = true := by
  simp [receive_file, hp, hm, hw, hd, hr, cancelIsFixedTimer, effectiveBound,
        cancelTimerSecs, requestTimeoutSecs]

/-- C4 witness: the amended theorem applied to `c4Env`. -/
theorem C4_witness :
    c4Env.requestFile = .completed (.ok none) ∧
    (receive_file "4-purple-sausages" c4Env).result =
      .error "File transfer was cancelled or failed to receive offer" :=
  ⟨rfl, (C4_cancel_is_timer_and_reported_as_error "4-purple-sausages"
    "4-purple-sausages" "/home/user/Downloads" c4Env rfl rfl rfl rfl rfl).1⟩

/-- C5: when no receiver joins within the 300 s AwaitingPeer timeout, the
sender's background session fails with exactly the phase-specific
no-peer-joined error; the trace is exactly the single wormhole-connect
attempt — there is no retry and nothing further happens with the code or
the mailbox after expiry. -/
theorem C5_no_peer_timeout_fails_without_retry (p : String) (env : SendEnv)
    (h : env.wormholeConnect = .timedOut) :
    (handle_file_send p env).1 = .error "No receiver connected within 5 minutes" ∧
    (handle_file_send p env).2 =
      [.log "Waiting for receiver to connect...",
       .connectWormhole awaitPeerTimeoutSecs] ∧
    (sendBackgroundTask p env).1 =
      .error "No receiver connected within 5 minutes" := by
  simp [handle_file_send, sendBackgroundTask, h]

/-- C5 witness: the theorem applied to `c5Env`. -/
theorem C5_witness :
    c5Env.wormholeConnect = .timedOut ∧
    (handle_file_send "/tmp/f.bin" c5Env).1 =
      .error "No receiver connected within 5 minutes" :=
  ⟨rfl, (C5_no_peer_timeout_fails_without_retry "/tmp/f.bin" c5Env rfl).1⟩

/-- C6 counterexample: `receive_file` has no destination-directory
parameter (its Tauri command parameters are exactly `_app` and `code_str`),
and with the identical caller argument the file lands wherever the system
downloads directory happens to be — two environments differing only in
`dirs_next::download_dir()` yield success paths in different directories,
so the saved path is not under any caller-supplied destination. -/
theorem C6_counterexample :
    receiveFileParams = ["_app", "code_str"] ∧
    receiveFileParams.contains "destination_dir" = false ∧
    (receive_file "4-hello-world" c6EnvA).result =
      .ok "/home/alice/Downloads/report.pdf" ∧
    (receive_file "4-hello-world" c6EnvB).result =
      .ok "/srv/elsewhere/report.pdf" :=
  ⟨rfl, rfl, rfl, rfl⟩

/-- C6 as amended: `receive_file` takes only the code string (no destination
directory), runs every phase to a terminal state within the call itself —
the trace of a successful run shows the mailbox connection, the wormhole
handshake, the file request and the accept all completed before the call
returns — and on success returns the path of the received file under the
system downloads directory. -/
theorem C6_receive_blocks_and_returns_downloads_path
    (c pc d n : String) (env : RecvEnv)
    (hp : env.parseCode = .ok pc) (hm : env.mailboxConnect = .ok ())
    (hw : env.wormholeConnect = .completed (.ok ()))
    (hd : env.downloadDir = some d)
    (hr : env.requestFile = .completed (.ok (some ⟨n⟩)))
    (hc : env.createFile = .ok ()) (ha : env.accept = .completed (.ok ())) :
    (receive_file c env).result = .ok (d ++ "/" ++ n) ∧
    (receive_file c env).trace.filter isNetworkEffect =
      [.connectMailbox,
       .connectWormhole recvWormholeTimeoutSecs,
       .streamOp "transfer::request_file" (some requestTimeoutSecs) cancelTimerSecs,
       .streamOp "accept" (some acceptTimeoutSecs) cancelTimerSecs] := by
  simp [receive_file, hp, hm, hw, hd, hr, hc, ha, isNetworkEffect]

/-- C6 witness: the amended theorem applied to `c6EnvA`. -/
theorem C6_witness :
    c6EnvA.downloadDir = some "/home/alice/Downloads" ∧
    (receive_file "4-hello-world" c6EnvA).result =
      .ok "/home/alice/Downloads/report.pdf" :=
  ⟨rfl, (C6_receive_blocks_and_returns_downloads_path "4-hello-world"
    "4-hello-world" "/home/alice/Downloads" "report.pdf" c6EnvA
    rfl rfl rfl rfl rfl rfl rfl).1⟩

/-- C7: for every path that does not exist, `send_file` fails with the
invalid-input error, performs no network effect (no mailbox is created),
and spawns no background task. -/
theorem C7_missing_file_rejected_before_network (p : String) (env : SendEnv)
    (h : env.pathExists = false) :
    (send_file p env).result = .error "File does not exist" ∧
    (send_file p env).hostTrace.filter isNetworkEffect = [] ∧
    (send_file p env).background = none := by
  simp [send_file, h, isNetworkEffect]

/-- C7 witness: the theorem applied to `c7Env`. -/
theorem C7_witness :
    c7Env.pathExists = false ∧
    (send_file "/no/such/file" c7Env).result = .error "File does not exist" :=
  ⟨rfl, (C7_missing_file_rejected_before_network "/no/such/file" c7Env rfl).1⟩

/-- C8: `receive_file` returns a success path only when the accept phase
itself completed successfully — a session that fails or times out
mid-transfer (or in any earlier phase) always surfaces an error and never
presents the destination path as a successful result. -/
theorem C8_success_requires_completed_accept (c p : String) (env : RecvEnv)
    (h : (receive_file c env).result = .ok p) :
    env.accept = .completed (.ok ()) := by
  rcases hpc : env.parseCode with e | pc
  · simp [receive_file, hpc] at h
  rcases hmc : env.mailboxConnect with e | u
  · simp [receive_file, hpc, hmc] at h
  rcases hwc : env.wormholeConnect with _ | (e | u2)
  · simp [receive_file, hpc, hmc, hwc] at h
  · simp [receive_file, hpc, hmc, hwc] at h
  rcases hdd : env.downloadDir with _ | d
  · simp [receive_file, hpc, hmc, hwc, hdd] at h
  rcases hrq : env.requestFile with _ | (e | (_ | offer))
  · simp [receive_file, hpc, hmc, hwc, hdd, hrq] at h
  · simp [receive_file, hpc, hmc, hwc, hdd, hrq] at h
  · simp [receive_file, hpc, hmc, hwc, hdd, hrq] at h
  rcases hcf : env.createFile with e | u3
  · simp [receive_file, hpc, hmc, hwc, hdd, hrq, hcf] at h
  rcases hac : env.accept with _ | (e | u4)
  · simp [receive_file, hpc, hmc, hwc, hdd, hrq, hcf, hac] at h
  · simp [receive_file, hpc, hmc, hwc, hdd, hrq, hcf, hac] at h
  · cases u4; rfl

/-- C8 witness: the theorem applied to `c8Env`, a successful run. -/
theorem C8_witness :
    (receive_file "9-brave-toaster" c8Env).result =
      .ok "/home/bob/Downloads/photo.jpg" ∧
    c8Env.accept = .completed (.ok ()) :=
  ⟨rfl, C8_success_requires_completed_accept "9-brave-toaster"
    "/home/bob/Downloads/photo.jpg" c8Env rfl⟩

/-- C9: the cancel capability passed to every transfer-API call
(`transfer::send_file`, `transfer::request_file`, `accept`) is the fixed
600 s sleep timer — every `streamOp` effect in every possible trace of
both commands carries `cancelSecs = 600` and an effective running bound of
at most 600 s, for all environments and caller inputs alike — and the
exported surface (`send_file`, `receive_file`, with parameters `path` and
`_app`, `code_str`) offers the host no cancel operation. -/
theorem C9_cancel_is_fixed_600s_timer (p c : String) (senv : SendEnv)
    (renv : RecvEnv) :
    (send_file p senv).hostTrace.all cancelIsFixedTimer = true ∧
    (sendBackgroundTask p senv).2.all cancelIsFixedTimer = true ∧
    (receive_file c renv).trace.all cancelIsFixedTimer = true ∧
    exportedCommands = ["send_file", "receive_file"] ∧
    exportedCommands.contains "cancel" = false ∧
    sendFileParams.contains "cancel" = false ∧
    receiveFileParams.contains "cancel" = false := by
  refine ⟨?_, ?_, ?_, rfl, rfl, rfl, rfl⟩
  · cases hex : senv.pathExists <;>
    rcases hmb : senv.mailbox with e | code <;>
    simp [send_file, hex, hmb, cancelIsFixedTimer]
  · rcases hwc : senv.wormholeConnect with _ | (e | u) <;>
    rcases hmd : senv.metadata with e2 | n <;>
    rcases hop : senv.openFile with e3 | u2 <;>
    rcases hsr : senv.sendResult with e4 | u3 <;>
    simp [sendBackgroundTask, handle_file_send, hwc, hmd, hop, hsr,
          cancelIsFixedTimer, effectiveBound, cancelTimerSecs]
  · rcases hpc : renv.parseCode with e | pc <;>
    rcases hmc : renv.mailboxConnect with e2 | u <;>
    rcases hwc : renv.wormholeConnect with _ | (e3 | u2) <;>
    rcases hdd : renv.downloadDir with _ | d <;>
    rcases hrq : renv.requestFile with _ | (e4 | (_ | offer)) <;>
    rcases hcf : renv.createFile with e5 | u3 <;>
    rcases hac : renv.accept with _ | (e6 | u4) <;>
    simp [receive_file, hpc, hmc, hwc, hdd, hrq, hcf, hac,
          cancelIsFixedTimer, effectiveBound, cancelTimerSecs,
          requestTimeoutSecs, acceptTimeoutSecs]

/-- C10: `send_file` checks nothing about the path beyond existence: when
the path exists and the mailbox is allocated, the caller receives
`Ok(code)` even though the path is not a readable regular file — the
metadata failure surfaces only as the error of the detached background
task, never in the `Result` returned to the caller. -/
theorem C10_unreadable_file_fails_only_in_background (p c m : String)
    (env : SendEnv) (hex : env.pathExists = true) (hmb : env.mailbox = .ok c)
    (hwc : env.wormholeConnect = .completed (.ok ()))
    (hmd : env.metadata = .error m) :
    (send_file p env).result = .ok c ∧
    (send_file p env).background = some (sendBackgroundTask p env) ∧
    (sendBackgroundTask p env).1 =
      .error ("Failed to get file metadata: " ++ m) := by
  simp [send_file, sendBackgroundTask, handle_file_send, hex, hmb, hwc, hmd]

/-- C10 witness: the theorem applied to `c10Env`, a directory path. -/
theorem C10_witness :
    c10Env.pathExists = true ∧
    c10Env.metadata = .error "Is a directory (os error 21)" ∧
    (send_file "/home/user/somedir" c10Env).result = .ok "8-salty-engine" :=
  ⟨rfl, rfl, (C10_unreadable_file_fails_only_in_background "/home/user/somedir"
    "8-salty-engine" "Is a directory (os error 21)" c10Env rfl rfl rfl rfl).1⟩

end Stork
